import Mathlib

/-!
Verification development for the `mah-rs` chat-bot client library.

The definitions below are a shallow embedding of the Rust sources in
`crates/mah_core` (message node model, envelope decoding, locator
serialization) and of the event-pump control flow in
`crates/mah_http_adapter`.  Rust machine integers (`i32`, `i64`) are
modelled as `Int`: the embedded code performs no arithmetic on them, only
comparisons, so overflow never matters.  Rust `String` is modelled as
`String`, `Vec<T>` as `List T`, `Option<T>` as `Option T`, and fallible
serde visitors as `Except String`.
-/

namespace Mah

/-- `MemberPermission` from `mah_core/src/lib.rs`. -/
inductive MemberPermission where
  | Member
  | Admin
  | Owner
deriving DecidableEq, Repr

/-- `GroupHonor` from `mah_core/src/lib.rs`. -/
inductive GroupHonor where
  | Talkative
  | Performer
  | Legend
  | Emotion
  | Bronze
  | Silver
  | Golden
  | Whirlwind
  | Richer
  | RedPacket
  | Unknown
deriving DecidableEq, Repr

/-- `ImageType` from `mah_core/src/message.rs`. -/
inductive ImageType where
  | Png
  | Bmp
  | Jpg
  | Gif
  | Apng
  | Unknown
deriving DecidableEq, Repr

/-- `UserDetails` from `mah_core/src/lib.rs`. -/
structure UserDetails where
  id : Int
  nickname : String
  remark : String
deriving DecidableEq, Repr

/-- `FriendDetails` from `mah_core/src/lib.rs` (a newtype over `UserDetails`). -/
structure FriendDetails where
  user : UserDetails
deriving DecidableEq, Repr

/-- `StrangerDetails` from `mah_core/src/lib.rs` (a newtype over `UserDetails`). -/
structure StrangerDetails where
  user : UserDetails
deriving DecidableEq, Repr

/-- `GroupDetails` from `mah_core/src/lib.rs`. -/
structure GroupDetails where
  id : Int
  name : String
  permission : MemberPermission
deriving DecidableEq, Repr

/-- `MemberDetails` from `mah_core/src/lib.rs`. -/
structure MemberDetails where
  id : Int
  memberName : String
  specialTitle : String
  permission : MemberPermission
  joinTimeSecs : Int
  lastSpeakTimeSecs : Int
  muteTimeRemainingSecs : Int
  group : GroupDetails
deriving DecidableEq, Repr

/-- `OtherClientDetails` from `mah_core/src/lib.rs`. -/
structure OtherClientDetails where
  id : Int
  platform : String
deriving DecidableEq, Repr

/-- `MessageHandle` from `mah_core/src/lib.rs`. -/
structure MessageHandle where
  id : Int
  context : Int
deriving DecidableEq, Repr

/-- `Bot::get_message` from `mah_core/src/lib.rs`. -/
def Bot.getMessage (id : Int) (context : Int) : MessageHandle :=
  { id := id, context := context }

/-- `AtNode` from `mah_core/src/message.rs`. -/
structure AtNode where
  targetId : Int
deriving DecidableEq, Repr

/-- `AtAllNode` from `mah_core/src/message.rs`. -/
structure AtAllNode where
deriving DecidableEq, Repr

/-- `IncomingFaceNode` from `mah_core/src/message.rs`. -/
structure IncomingFaceNode where
  id : Int
  name : String
  superFace : Bool
deriving DecidableEq, Repr

/-- `OutgoingFace` from `mah_core/src/message.rs`. -/
inductive OutgoingFace where
  | Id (id : Int)
  | Name (name : String)
deriving DecidableEq, Repr

/-- `OutgoingFaceNode` from `mah_core/src/message.rs`. -/
structure OutgoingFaceNode where
  face : OutgoingFace
  superFace : Bool
deriving DecidableEq, Repr

/-- `PlainNode` from `mah_core/src/message.rs`. -/
structure PlainNode where
  text : String
deriving DecidableEq, Repr

/-- `IncomingImageNode` from `mah_core/src/message.rs`. -/
structure IncomingImageNode where
  imageId : String
  url : String
  width : Int
  height : Int
  size : Int
  imageType : ImageType
  isEmoji : Bool
deriving DecidableEq, Repr

/-- `OutgoingImageNode` from `mah_core/src/message.rs`. -/
inductive OutgoingImageNode where
  | ImageId (id : String)
  | Url (url : String)
  | Path (path : String)
  | Base64 (base64 : String)
deriving DecidableEq, Repr

/-- `IncomingVoiceNode` from `mah_core/src/message.rs`. -/
structure IncomingVoiceNode where
  voiceId : String
  url : String
  lengthSecs : Int
deriving DecidableEq, Repr

/-- `OutgoingVoiceNode` from `mah_core/src/message.rs`. -/
inductive OutgoingVoiceNode where
  | VoiceId (id : String)
  | Url (url : String)
  | Path (path : String)
  | Base64 (base64 : String)
deriving DecidableEq, Repr

/-- `XmlNode` from `mah_core/src/message.rs`. -/
structure XmlNode where
  contents : String
deriving DecidableEq, Repr

/-- `OutgoingJsonNode` from `mah_core/src/message.rs`. -/
structure OutgoingJsonNode where
  contents : String
deriving DecidableEq, Repr

/-- `AppNode` from `mah_core/src/message.rs`. -/
structure AppNode where
  contents : String
deriving DecidableEq, Repr

/-- `IncomingMarketFaceNode` from `mah_core/src/message.rs`. -/
structure IncomingMarketFaceNode where
  id : Int
  name : String
deriving DecidableEq, Repr

/-- `PokeNode` from `mah_core/src/message.rs`. -/
structure PokeNode where
  name : String
deriving DecidableEq, Repr

/-- `DiceNode` from `mah_core/src/message.rs`. -/
structure DiceNode where
  value : Int
deriving DecidableEq, Repr

/-- `MusicShareNode` from `mah_core/src/message.rs`. -/
structure MusicShareNode where
  kind : String
  title : String
  summary : String
  jumpUrl : String
  pictureUrl : String
  musicUrl : String
  brief : String
deriving DecidableEq, Repr

/-- `IncomingFileNode` from `mah_core/src/message.rs`. -/
structure IncomingFileNode where
  id : String
  name : String
  size : Int
deriving DecidableEq, Repr

/-- `IncomingShortVideoNode` from `mah_core/src/message.rs`. -/
structure IncomingShortVideoNode where
  videoId : String
  name : String
  size : Int
  videoType : String
  url : Option String
  md5 : String
deriving DecidableEq, Repr

mutual

/-- `IncomingMessageNode` from `mah_core/src/message.rs`. -/
inductive IncomingMessageNode where
  | At (node : AtNode)
  | AtAll (node : AtAllNode)
  | Face (node : IncomingFaceNode)
  | Plain (node : PlainNode)
  | Image (node : IncomingImageNode)
  | Voice (node : IncomingVoiceNode)
  | Xml (node : XmlNode)
  | App (node : AppNode)
  | Poke (node : PokeNode)
  | Dice (node : DiceNode)
  | MarketFace (node : IncomingMarketFaceNode)
  | MusicShare (node : MusicShareNode)
  | Forward (node : IncomingForwardNode)
  | File (node : IncomingFileNode)
  | ShortVideo (node : IncomingShortVideoNode)

/-- `IncomingForwardNode` from `mah_core/src/message.rs`. -/
inductive IncomingForwardNode where
  | mk (messages : List IncomingForwardedMessage)

/-- `IncomingForwardedMessage` from `mah_core/src/message.rs`. -/
inductive IncomingForwardedMessage where
  | mk (senderId : Int) (senderName : String) (time : Int)
      (quote : Option QuotedMessage) (nodes : List IncomingMessageNode)

/-- `QuotedMessage` from `mah_core/src/message.rs`. -/
inductive QuotedMessage where
  | Group (message : QuotedGroupMessage)
  | User (message : QuotedUserMessage)

/-- `QuotedGroupMessage` from `mah_core/src/message.rs`. -/
inductive QuotedGroupMessage where
  | mk (contextId : Int) (senderId : Int) (contents : QuotedMessageContents)

/-- `QuotedUserMessage` from `mah_core/src/message.rs`. -/
inductive QuotedUserMessage where
  | mk (receiverId : Int) (senderId : Int) (contents : QuotedMessageContents)

/-- `QuotedMessageContents` from `mah_core/src/message.rs`. -/
inductive QuotedMessageContents where
  | mk (id : Option Int) (nodes : List IncomingMessageNode)

end

/-- Field projection for `QuotedMessageContents.id`. -/
def QuotedMessageContents.id : QuotedMessageContents → Option Int
  | .mk id _ => id

/-- Field projection for `QuotedMessageContents.nodes`. -/
def QuotedMessageContents.nodes : QuotedMessageContents → List IncomingMessageNode
  | .mk _ nodes => nodes

/-- `AnyQuotedMessage::contents` from `mah_core/src/message.rs`. -/
def QuotedMessage.contents : QuotedMessage → QuotedMessageContents
  | .Group (.mk _ _ contents) => contents
  | .User (.mk _ _ contents) => contents

/-- `AnyQuotedMessage::id` from `mah_core/src/message.rs`:
the quoted-message id is the id of the quote's contents. -/
def QuotedMessage.quotedId (message : QuotedMessage) : Option Int :=
  message.contents.id

/-- `ForwardDisplay` from `mah_core/src/message.rs`. -/
structure ForwardDisplay where
  brief : Option String
  preview : Option (List String)
  source : Option String
  summary : Option String
  title : Option String
deriving DecidableEq, Repr

/-- `RefForwardedMessage` from `mah_core/src/message.rs`. -/
structure RefForwardedMessage where
  context : Option Int
  id : Int
deriving DecidableEq, Repr

mutual

/-- `OutgoingMessageNode` from `mah_core/src/message.rs`. -/
inductive OutgoingMessageNode where
  | At (node : AtNode)
  | AtAll (node : AtAllNode)
  | Face (node : OutgoingFaceNode)
  | Plain (node : PlainNode)
  | Image (node : OutgoingImageNode)
  | Voice (node : OutgoingVoiceNode)
  | Xml (node : XmlNode)
  | Json (node : OutgoingJsonNode)
  | App (node : AppNode)
  | Poke (node : PokeNode)
  | Dice (node : DiceNode)
  | MusicShare (node : MusicShareNode)
  | Forward (node : OutgoingForwardNode)
  | MiraiCode (node : OutgoingMiraiCodeNode)

/-- `OutgoingForwardNode` from `mah_core/src/message.rs`. -/
inductive OutgoingForwardNode where
  | mk (messages : List OutgoingForwardedMessage) (display : Option ForwardDisplay)

/-- `OutgoingForwardedMessage` from `mah_core/src/message.rs`. -/
inductive OutgoingForwardedMessage where
  | Ref (message : RefForwardedMessage)
  | Custom (message : CustomForwardedMessage)

/-- `CustomForwardedMessage` from `mah_core/src/message.rs`. -/
inductive CustomForwardedMessage where
  | mk (senderId : Int) (senderName : String) (time : Option Int)
      (nodes : List OutgoingMessageNode)

/-- `OutgoingMiraiCodeNode` from `mah_core/src/message.rs`. -/
inductive OutgoingMiraiCodeNode where
  | mk (code : String)

end

/-- `TryIntoOutgoingError` from `mah_core/src/message.rs`: the
unrepresentable-content error, a unit struct. -/
structure TryIntoOutgoingError where
deriving DecidableEq, Repr

mutual

/-- `TryFrom<&IncomingMessageNode> for OutgoingMessageNode` from
`mah_core/src/message.rs`.  Each `From` conversion for a per-variant
payload is inlined: `At`/`AtAll`/`Plain`/`Xml`/`App`/`Poke`/`Dice`/
`MusicShare` copy the payload, `Face` keeps the numeric id and the super
flag, `Image` keeps only the image id, and `Forward` recurses. -/
def tryIntoOutgoingNode : IncomingMessageNode → Except TryIntoOutgoingError OutgoingMessageNode
  | .At node => .ok (.At node)
  | .AtAll node => .ok (.AtAll node)
  | .Face node => .ok (.Face { face := .Id node.id, superFace := node.superFace })
  | .Plain node => .ok (.Plain node)
  | .Image node => .ok (.Image (.ImageId node.imageId))
  | .Voice _ => .error {}
  | .Xml node => .ok (.Xml node)
  | .App node => .ok (.App node)
  | .Poke node => .ok (.Poke node)
  | .Dice node => .ok (.Dice node)
  | .MarketFace _ => .error {}
  | .MusicShare node => .ok (.MusicShare node)
  | .Forward node =>
    match tryIntoOutgoingForward node with
    | .ok out => .ok (.Forward out)
    | .error e => .error e
  | .File _ => .error {}
  | .ShortVideo _ => .error {}

/-- `TryFrom<&IncomingForwardNode> for OutgoingForwardNode` from
`mah_core/src/message.rs`: convert every nested forwarded message,
short-circuiting on the first failure, and set `display` to `None`. -/
def tryIntoOutgoingForward : IncomingForwardNode → Except TryIntoOutgoingError OutgoingForwardNode
  | .mk messages =>
    match tryIntoOutgoingForwardedMessages messages with
    | .ok out => .ok (.mk out none)
    | .error e => .error e

/-- The per-message closure inside the `TryFrom` impl for forward nodes:
each incoming forwarded message becomes a `Custom` outgoing forwarded
message re-expressing sender id, sender name, timestamp and the converted
node list; `collect::<Result<_, _>>` short-circuits on the first error. -/
def tryIntoOutgoingForwardedMessages :
    List IncomingForwardedMessage → Except TryIntoOutgoingError (List OutgoingForwardedMessage)
  | [] => .ok []
  | .mk senderId senderName time _quote nodes :: rest =>
    match tryIntoOutgoingNodes nodes with
    | .error e => .error e
    | .ok outNodes =>
      match tryIntoOutgoingForwardedMessages rest with
      | .error e => .error e
      | .ok outRest => .ok (.Custom (.mk senderId senderName (some time) outNodes) :: outRest)

/-- `message.nodes.iter().map(|node| node.try_into()).collect::<Result<_, _>>()`
from the forward-node conversion: convert a node list, short-circuiting on
the first failure. -/
def tryIntoOutgoingNodes :
    List IncomingMessageNode → Except TryIntoOutgoingError (List OutgoingMessageNode)
  | [] => .ok []
  | node :: rest =>
    match tryIntoOutgoingNode node with
    | .error e => .error e
    | .ok out =>
      match tryIntoOutgoingNodes rest with
      | .error e => .error e
      | .ok outRest => .ok (out :: outRest)

end

mutual

/-- Specification-side characterisation (for the refinement claim about
the conversion): a node is incoming-only when it is a `Voice`,
`MarketFace`, `File` or `ShortVideo` node, or a `Forward` node that
transitively contains such a node in a nested message. -/
def specIncomingOnlyNode : IncomingMessageNode → Bool
  | .Voice _ => true
  | .MarketFace _ => true
  | .File _ => true
  | .ShortVideo _ => true
  | .Forward node => specIncomingOnlyForward node
  | _ => false

/-- Specification-side: a forward node contains an incoming-only node in
one of its nested messages. -/
def specIncomingOnlyForward : IncomingForwardNode → Bool
  | .mk messages => specIncomingOnlyMessages messages

/-- Specification-side: some nested message contains an incoming-only node. -/
def specIncomingOnlyMessages : List IncomingForwardedMessage → Bool
  | [] => false
  | .mk _ _ _ _ nodes :: rest => specIncomingOnlyNodes nodes || specIncomingOnlyMessages rest

/-- Specification-side: some node in the list is incoming-only. -/
def specIncomingOnlyNodes : List IncomingMessageNode → Bool
  | [] => false
  | node :: rest => specIncomingOnlyNode node || specIncomingOnlyNodes rest

end

/-- Whether an `Except` value is a success. -/
def exceptOk {ε α : Type} : Except ε α → Bool
  | .ok _ => true
  | .error _ => false

mutual

/-- The conversion of a node succeeds exactly when the node is not
incoming-only in the spec's sense. -/
theorem tryIntoOutgoingNode_ok (n : IncomingMessageNode) :
    exceptOk (tryIntoOutgoingNode n) = !specIncomingOnlyNode n := by
  cases n
  case Forward node =>
    have ih := tryIntoOutgoingForward_ok node
    simp only [tryIntoOutgoingNode, specIncomingOnlyNode]
    cases h : tryIntoOutgoingForward node <;> simp_all [exceptOk]
  all_goals simp [tryIntoOutgoingNode, specIncomingOnlyNode, exceptOk]

/-- The conversion of a forward node succeeds exactly when no nested
message contains an incoming-only node. -/
theorem tryIntoOutgoingForward_ok (f : IncomingForwardNode) :
    exceptOk (tryIntoOutgoingForward f) = !specIncomingOnlyForward f := by
  cases f with
  | mk messages =>
    have ih := tryIntoOutgoingForwardedMessages_ok messages
    simp only [tryIntoOutgoingForward, specIncomingOnlyForward]
    cases h : tryIntoOutgoingForwardedMessages messages <;> simp_all [exceptOk]

/-- Converting a list of forwarded messages succeeds exactly when none of
them contains an incoming-only node. -/
theorem tryIntoOutgoingForwardedMessages_ok (ms : List IncomingForwardedMessage) :
    exceptOk (tryIntoOutgoingForwardedMessages ms) = !specIncomingOnlyMessages ms := by
  cases ms with
  | nil => simp [tryIntoOutgoingForwardedMessages, specIncomingOnlyMessages, exceptOk]
  | cons m rest =>
    cases m with
    | mk senderId senderName time q nodes =>
      have ih1 := tryIntoOutgoingNodes_ok nodes
      have ih2 := tryIntoOutgoingForwardedMessages_ok rest
      simp only [tryIntoOutgoingForwardedMessages, specIncomingOnlyMessages]
      cases h1 : tryIntoOutgoingNodes nodes with
      | error e => simp_all [exceptOk]
      | ok outNodes =>
        cases h2 : tryIntoOutgoingForwardedMessages rest <;> simp_all [exceptOk]

/-- Converting a node list succeeds exactly when no node in it is
incoming-only. -/
theorem tryIntoOutgoingNodes_ok (ns : List IncomingMessageNode) :
    exceptOk (tryIntoOutgoingNodes ns) = !specIncomingOnlyNodes ns := by
  cases ns with
  | nil => simp [tryIntoOutgoingNodes, specIncomingOnlyNodes, exceptOk]
  | cons node rest =>
    have ih1 := tryIntoOutgoingNode_ok node
    have ih2 := tryIntoOutgoingNodes_ok rest
    simp only [tryIntoOutgoingNodes, specIncomingOnlyNodes]
    cases h1 : tryIntoOutgoingNode node with
    | error e => simp_all [exceptOk]
    | ok out =>
      cases h2 : tryIntoOutgoingNodes rest <;> simp_all [exceptOk]

end

/-- C1: the conversion from an incoming message node to an outgoing
message node is defined for every incoming variant; it returns the
unrepresentable-content error `TryIntoOutgoingError` if and only if the
node is a `Voice`, `MarketFace`, `File` or `ShortVideo` node, or a
`Forward` node that (transitively through nested forwards) contains such
a node in a nested message; for every other incoming node it returns
`Ok`. -/
theorem c1_try_into_outgoing_total (n : IncomingMessageNode) :
    (tryIntoOutgoingNode n = .error {} ↔ specIncomingOnlyNode n = true) ∧
    ((∃ out, tryIntoOutgoingNode n = .ok out) ↔ specIncomingOnlyNode n = false) := by
  have h := tryIntoOutgoingNode_ok n
  cases hs : specIncomingOnlyNode n with
  | false =>
    rw [hs] at h
    cases hE : tryIntoOutgoingNode n with
    | ok out => simp [hE]
    | error e => rw [hE] at h; simp [exceptOk] at h
  | true =>
    rw [hs] at h
    cases hE : tryIntoOutgoingNode n with
    | ok out => rw [hE] at h; simp [exceptOk] at h
    | error e => obtain ⟨⟩ := e; simp [hE]

/-- `IncomingMessageContents` from `mah_core/src/message.rs`. -/
structure IncomingMessageContents where
  id : Option Int
  timeSecs : Option Int
  quote : Option QuotedMessage
  nodes : List IncomingMessageNode

/-- `IncomingSourceNode` from the `visit_seq` deserializer in
`mah_core/src/message.rs`. -/
structure IncomingSourceNode where
  id : Int
  time : Int
deriving DecidableEq, Repr

/-- `IncomingQuoteNode` from the `visit_seq` deserializer in
`mah_core/src/message.rs`.  Its `origin` field is a full message-contents
record (already decoded by the nested deserializer). -/
structure IncomingQuoteNode where
  id : Int
  senderId : Int
  targetId : Int
  groupId : Int
  origin : IncomingMessageContents

/-- The `Impl` enum inside `IncomingMessageContentsVisitor::visit_seq` in
`mah_core/src/message.rs`: one already-deserialized element of the wire
`messageChain` array, which is either the `Source` pseudo-node, the
`Quote` pseudo-node, or a content node. -/
inductive ChainImpl where
  | Source (node : IncomingSourceNode)
  | At (node : AtNode)
  | AtAll (node : AtAllNode)
  | Face (node : IncomingFaceNode)
  | Plain (node : PlainNode)
  | Image (node : IncomingImageNode)
  | Voice (node : IncomingVoiceNode)
  | Xml (node : XmlNode)
  | App (node : AppNode)
  | Quote (node : IncomingQuoteNode)
  | Poke (node : PokeNode)
  | Dice (node : DiceNode)
  | MarketFace (node : IncomingMarketFaceNode)
  | MusicShare (node : MusicShareNode)
  | Forward (node : IncomingForwardNode)
  | File (node : IncomingFileNode)
  | ShortVideo (node : IncomingShortVideoNode)

/-- The loop body of `IncomingMessageContentsVisitor::visit_seq` in
`mah_core/src/message.rs`, with the mutable locals `id`, `time_secs`,
`quote` and `nodes` made explicit accumulator arguments.  A second
`Source` element (detected through `time_secs.is_some()`) and a second
`Quote` element (detected through `quote.is_some()`) are decode errors;
a `Source` element stores its id through the zero sentinel
`(node.id != 0).then_some(node.id)`; a `Quote` element selects the user
variant when `group_id == 0` and the group variant otherwise; every
content node is pushed onto `nodes`. -/
def visitSeq (id timeSecs : Option Int) (quote : Option QuotedMessage)
    (nodes : List IncomingMessageNode) :
    List ChainImpl → Except String IncomingMessageContents
  | [] => .ok { id := id, timeSecs := timeSecs, quote := quote, nodes := nodes }
  | elem :: rest =>
    match elem with
    | .Source node =>
      if timeSecs.isSome then .error "duplicate `Source`"
      else
        visitSeq (if node.id ≠ 0 then some node.id else none) (some node.time) quote nodes rest
    | .At node => visitSeq id timeSecs quote (nodes ++ [.At node]) rest
    | .AtAll node => visitSeq id timeSecs quote (nodes ++ [.AtAll node]) rest
    | .Face node => visitSeq id timeSecs quote (nodes ++ [.Face node]) rest
    | .Plain node => visitSeq id timeSecs quote (nodes ++ [.Plain node]) rest
    | .Image node => visitSeq id timeSecs quote (nodes ++ [.Image node]) rest
    | .Voice node => visitSeq id timeSecs quote (nodes ++ [.Voice node]) rest
    | .Xml node => visitSeq id timeSecs quote (nodes ++ [.Xml node]) rest
    | .App node => visitSeq id timeSecs quote (nodes ++ [.App node]) rest
    | .Quote node =>
      if quote.isSome then .error "duplicate `Quote`"
      else
        visitSeq id timeSecs
          (some
            (if node.groupId = 0 then
              QuotedMessage.User
                (.mk node.targetId node.senderId
                  (.mk (if node.id ≠ 0 then some node.id else none) node.origin.nodes))
            else
              QuotedMessage.Group
                (.mk node.targetId node.senderId
                  (.mk (if node.id ≠ 0 then some node.id else none) node.origin.nodes))))
          nodes rest
    | .Poke node => visitSeq id timeSecs quote (nodes ++ [.Poke node]) rest
    | .Dice node => visitSeq id timeSecs quote (nodes ++ [.Dice node]) rest
    | .MarketFace node => visitSeq id timeSecs quote (nodes ++ [.MarketFace node]) rest
    | .MusicShare node => visitSeq id timeSecs quote (nodes ++ [.MusicShare node]) rest
    | .Forward node => visitSeq id timeSecs quote (nodes ++ [.Forward node]) rest
    | .File node => visitSeq id timeSecs quote (nodes ++ [.File node]) rest
    | .ShortVideo node => visitSeq id timeSecs quote (nodes ++ [.ShortVideo node]) rest

/-- `Deserialize for IncomingMessageContents` from `mah_core/src/message.rs`:
run the visitor over the chain elements with all accumulators empty. -/
def IncomingMessageContents.decode (elems : List ChainImpl) :
    Except String IncomingMessageContents :=
  visitSeq none none none [] elems

/-- Whether a chain element is the `Source` pseudo-node. -/
def ChainImpl.isSource : ChainImpl → Bool
  | .Source _ => true
  | _ => false

/-- Whether a chain element is the `Quote` pseudo-node. -/
def ChainImpl.isQuote : ChainImpl → Bool
  | .Quote _ => true
  | _ => false

/-- `FriendMessageRecallEvent` from `mah_core/src/event.rs`. -/
structure FriendMessageRecallEvent where
  messageId : Int
  senderId : Int
  timeSecs : Int
deriving DecidableEq, Repr

/-- `FriendMessageRecallEvent::message` from `mah_core/src/event.rs`:
`(self.message_id != 0).then_some(Bot.get_message(self.message_id, self.sender_id))`. -/
def FriendMessageRecallEvent.message (e : FriendMessageRecallEvent) : Option MessageHandle :=
  if e.messageId ≠ 0 then some (Bot.getMessage e.messageId e.senderId) else none

/-- `GroupMessageRecallEvent` from `mah_core/src/event.rs`. -/
structure GroupMessageRecallEvent where
  messageId : Int
  context : GroupDetails
  senderId : Int
  timeSecs : Int
  operator : Option MemberDetails
deriving DecidableEq, Repr

/-- `GroupMessageRecallEvent::message` from `mah_core/src/event.rs`:
`(self.message_id != 0).then_some(Bot.get_message(self.message_id, self.context.id))`. -/
def GroupMessageRecallEvent.message (e : GroupMessageRecallEvent) : Option MessageHandle :=
  if e.messageId ≠ 0 then some (Bot.getMessage e.messageId e.context.id) else none

/-- `GroupMessageRecallEvent::is_operator` from `mah_core/src/event.rs`. -/
def GroupMessageRecallEvent.isOperator (e : GroupMessageRecallEvent) : Bool :=
  e.operator.isNone

/-- The chain visitor succeeds from any intermediate state exactly when
the remaining elements keep the total number of `Source` pseudo-nodes
(counting one already seen through `time_secs.is_some()`) and of `Quote`
pseudo-nodes (counting one already seen) at most one each. -/
theorem visitSeq_ok_iff (l : List ChainImpl) :
    ∀ (id timeSecs : Option Int) (quote : Option QuotedMessage)
      (nodes : List IncomingMessageNode),
      (∃ c, visitSeq id timeSecs quote nodes l = Except.ok c) ↔
        (l.countP ChainImpl.isSource + (if timeSecs.isSome then 1 else 0) ≤ 1 ∧
          l.countP ChainImpl.isQuote + (if quote.isSome then 1 else 0) ≤ 1) := by
  induction l with
  | nil =>
    intro id timeSecs quote nodes
    refine iff_of_true ⟨_, rfl⟩ ⟨?_, ?_⟩ <;> split <;> simp
  | cons e rest ih =>
    intro id timeSecs quote nodes
    cases e
    case Source node =>
      cases timeSecs with
      | some t =>
        refine iff_of_false ?_ ?_
        · rintro ⟨c, hc⟩
          simp [visitSeq] at hc
        · rintro ⟨h1, _⟩
          simp [List.countP_cons, ChainImpl.isSource] at h1
      | none =>
        simp only [visitSeq, Option.isSome_none, Bool.false_eq_true, if_false]
        rw [ih]
        simp [List.countP_cons, ChainImpl.isSource, ChainImpl.isQuote]
    case Quote node =>
      cases quote with
      | some q0 =>
        refine iff_of_false ?_ ?_
        · rintro ⟨c, hc⟩
          simp [visitSeq] at hc
        · rintro ⟨_, h2⟩
          simp [List.countP_cons, ChainImpl.isQuote] at h2
      | none =>
        simp only [visitSeq, Option.isSome_none, Bool.false_eq_true, if_false]
        rw [ih]
        simp [List.countP_cons, ChainImpl.isSource, ChainImpl.isQuote]
    all_goals
      simp only [visitSeq]
      rw [ih]
      simp [List.countP_cons, ChainImpl.isSource, ChainImpl.isQuote]

/-- C7: when a message chain is decoded, the `Source` and `Quote`
pseudo-nodes may each be absent and may each appear at most once; a chain
with two `Source` pseudo-nodes or two `Quote` pseudo-nodes fails to
decode with an error instead of keeping either occurrence. -/
theorem c7_pseudo_node_at_most_once (l : List ChainImpl) :
    (∃ c, IncomingMessageContents.decode l = Except.ok c) ↔
      (l.countP ChainImpl.isSource ≤ 1 ∧ l.countP ChainImpl.isQuote ≤ 1) := by
  have h := visitSeq_ok_iff l none none none []
  simpa using h

/-- C2: wire value `0` in an id-like field decodes to `none` and a
nonzero value to `some`, identically for the message id taken from the
`Source` pseudo-node, the quoted-message id taken from the `Quote`
pseudo-node, and the recall-event message ids exposed by
`FriendMessageRecallEvent::message` and `GroupMessageRecallEvent::message`. -/
theorem c2_zero_sentinel :
    (∀ v t : Int,
        (IncomingMessageContents.decode [ChainImpl.Source ⟨v, t⟩]).map
            IncomingMessageContents.id =
          Except.ok (if v = 0 then none else some v)) ∧
    (∀ q : IncomingQuoteNode,
        (IncomingMessageContents.decode [ChainImpl.Quote q]).map
            (fun c => c.quote.map QuotedMessage.quotedId) =
          Except.ok (some (if q.id = 0 then none else some q.id))) ∧
    (∀ e : FriendMessageRecallEvent,
        e.message =
          if e.messageId = 0 then none
          else some (Bot.getMessage e.messageId e.senderId)) ∧
    (∀ e : GroupMessageRecallEvent,
        e.message =
          if e.messageId = 0 then none
          else some (Bot.getMessage e.messageId e.context.id)) := by
  refine ⟨?_, ?_, ?_, ?_⟩
  · intro v t
    by_cases hv : v = 0 <;>
      simp [IncomingMessageContents.decode, visitSeq, hv, Except.map,
        IncomingMessageContents.id]
  · intro q
    by_cases hg : q.groupId = 0 <;> by_cases hv : q.id = 0 <;>
      simp [IncomingMessageContents.decode, visitSeq, hg, hv, Except.map,
        QuotedMessage.quotedId, QuotedMessage.contents, QuotedMessageContents.id]
  · intro e
    by_cases h : e.messageId = 0 <;> simp [FriendMessageRecallEvent.message, h]
  · intro e
    by_cases h : e.messageId = 0 <;> simp [GroupMessageRecallEvent.message, h]

/-- C6: when a `Quote` pseudo-node is decoded inside a message chain, the
concrete quoted-message variant is selected by the quote's group id
alone: a zero group id yields `QuotedMessage::User` with the quote's
target id as receiver and sender id as sender, and any nonzero group id
yields `QuotedMessage::Group` with the target id as the group context id;
no other field of the quote participates in the choice. -/
theorem c6_quote_variant_by_group_id (p : PlainNode) (q : IncomingQuoteNode) :
    IncomingMessageContents.decode [ChainImpl.Plain p, ChainImpl.Quote q] =
      Except.ok
        { id := none
          timeSecs := none
          quote := some
            (if q.groupId = 0 then
              QuotedMessage.User
                (.mk q.targetId q.senderId
                  (.mk (if q.id = 0 then none else some q.id) q.origin.nodes))
            else
              QuotedMessage.Group
                (.mk q.targetId q.senderId
                  (.mk (if q.id = 0 then none else some q.id) q.origin.nodes)))
          nodes := [.Plain p] } := by
  by_cases hg : q.groupId = 0 <;> by_cases hv : q.id = 0 <;>
    simp [IncomingMessageContents.decode, visitSeq, hg, hv]

/-- `BotOnlineEvent` from `mah_core/src/event.rs`. -/
structure BotOnlineEvent where
  id : Int

/-- `BotOfflineActiveEvent` from `mah_core/src/event.rs`. -/
structure BotOfflineActiveEvent where
  id : Int

/-- `BotOfflineForcedEvent` from `mah_core/src/event.rs`. -/
structure BotOfflineForcedEvent where
  id : Int
  title : String
  message : String

/-- `BotOfflineDroppedEvent` from `mah_core/src/event.rs`. -/
structure BotOfflineDroppedEvent where
  id : Int

/-- `BotReloginEvent` from `mah_core/src/event.rs`. -/
structure BotReloginEvent where
  id : Int

/-- `BotMuteEvent` from `mah_core/src/event.rs`. -/
structure BotMuteEvent where
  durationSecs : Int
  operator : MemberDetails

/-- `BotUnmuteEvent` from `mah_core/src/event.rs`. -/
structure BotUnmuteEvent where
  operator : MemberDetails

/-- `BotJoinGroupEvent` from `mah_core/src/event.rs`. -/
structure BotJoinGroupEvent where
  group : GroupDetails
  inviter : Option MemberDetails

/-- `BotLeaveGroupActiveEvent` from `mah_core/src/event.rs`. -/
structure BotLeaveGroupActiveEvent where
  group : GroupDetails

/-- `BotLeaveGroupKickedEvent` from `mah_core/src/event.rs`. -/
structure BotLeaveGroupKickedEvent where
  group : GroupDetails
  operator : MemberDetails

/-- `BotLeaveGroupDisbandEvent` from `mah_core/src/event.rs`. -/
structure BotLeaveGroupDisbandEvent where
  group : GroupDetails
  operator : MemberDetails

/-- `BotPermissionChangeEvent` from `mah_core/src/event.rs`. -/
structure BotPermissionChangeEvent where
  group : GroupDetails
  original : MemberPermission
  current : MemberPermission

/-- `StrangerNudgeEvent` from `mah_core/src/event.rs`. -/
structure StrangerNudgeEvent where
  context : StrangerDetails
  fromId : Int
  toId : Int
  action : String
  suffix : String
deriving DecidableEq, Repr

/-- `FriendNudgeEvent` from `mah_core/src/event.rs`. -/
structure FriendNudgeEvent where
  context : FriendDetails
  fromId : Int
  toId : Int
  action : String
  suffix : String
deriving DecidableEq, Repr

/-- `FriendAddEvent` from `mah_core/src/event.rs`. -/
structure FriendAddEvent where
  friend : FriendDetails
  wasStranger : Bool

/-- `FriendDeleteEvent` from `mah_core/src/event.rs`. -/
structure FriendDeleteEvent where
  friend : FriendDetails

/-- `FriendNicknameChangeEvent` from `mah_core/src/event.rs`. -/
structure FriendNicknameChangeEvent where
  friend : FriendDetails
  original : String
  current : String

/-- `FriendTypingEvent` from `mah_core/src/event.rs`. -/
structure FriendTypingEvent where
  friend : FriendDetails
  typing : Bool

/-- `GroupNudgeEvent` from `mah_core/src/event.rs`. -/
structure GroupNudgeEvent where
  context : GroupDetails
  fromId : Int
  toId : Int
  action : String
  suffix : String
deriving DecidableEq, Repr

/-- `GroupNameChangeEvent` from `mah_core/src/event.rs`. -/
structure GroupNameChangeEvent where
  group : GroupDetails
  original : String
  current : String
  operator : Option MemberDetails

/-- `GroupMuteAllEvent` from `mah_core/src/event.rs`. -/
structure GroupMuteAllEvent where
  group : GroupDetails
  original : Bool
  current : Bool
  operator : Option MemberDetails

/-- `GroupAllowAnonymousChatEvent` from `mah_core/src/event.rs`. -/
structure GroupAllowAnonymousChatEvent where
  group : GroupDetails
  original : Bool
  current : Bool
  operator : Option MemberDetails

/-- `GroupAllowConfessTalkEvent` from `mah_core/src/event.rs`. -/
structure GroupAllowConfessTalkEvent where
  group : GroupDetails
  original : Bool
  current : Bool
  isOperator : Bool

/-- `GroupAllowMemberInviteEvent` from `mah_core/src/event.rs`. -/
structure GroupAllowMemberInviteEvent where
  group : GroupDetails
  original : Bool
  current : Bool
  operator : Option MemberDetails

/-- `MemberMuteEvent` from `mah_core/src/event.rs`. -/
structure MemberMuteEvent where
  member : MemberDetails
  durationSecs : Int
  operator : Option MemberDetails

/-- `MemberUnmuteEvent` from `mah_core/src/event.rs`. -/
structure MemberUnmuteEvent where
  member : MemberDetails
  operator : Option MemberDetails

/-- `MemberJoinEvent` from `mah_core/src/event.rs`. -/
structure MemberJoinEvent where
  member : MemberDetails
  inviter : Option MemberDetails

/-- `MemberLeaveActiveEvent` from `mah_core/src/event.rs`. -/
structure MemberLeaveActiveEvent where
  member : MemberDetails

/-- `MemberLeaveKickedEvent` from `mah_core/src/event.rs`. -/
structure MemberLeaveKickedEvent where
  member : MemberDetails
  operator : Option MemberDetails

/-- `MemberNameChangeEvent` from `mah_core/src/event.rs`. -/
structure MemberNameChangeEvent where
  member : MemberDetails
  original : String
  current : String

/-- `MemberSpecialTitleChangeEvent` from `mah_core/src/event.rs`. -/
structure MemberSpecialTitleChangeEvent where
  member : MemberDetails
  original : String
  current : String

/-- `MemberPermissionChangeEvent` from `mah_core/src/event.rs`. -/
structure MemberPermissionChangeEvent where
  member : MemberDetails
  original : MemberPermission
  current : MemberPermission

/-- `MemberHonorChangeAction` from `mah_core/src/event.rs`. -/
inductive MemberHonorChangeAction where
  | Achieve
  | Lose
deriving DecidableEq, Repr

/-- `MemberHonorChangeEvent` from `mah_core/src/event.rs`. -/
structure MemberHonorChangeEvent where
  member : MemberDetails
  action : MemberHonorChangeAction
  honor : GroupHonor

/-- `OtherClientOnlineEvent` from `mah_core/src/event.rs`. -/
structure OtherClientOnlineEvent where
  client : OtherClientDetails

/-- `OtherClientOfflineEvent` from `mah_core/src/event.rs`. -/
structure OtherClientOfflineEvent where
  client : OtherClientDetails

/-- `NewFriendRequestEvent` from `mah_core/src/event.rs`. -/
structure NewFriendRequestEvent where
  eventId : Int
  fromId : Int
  fromNickname : String
  groupId : Int
  message : String

/-- `MemberJoinRequestEvent` from `mah_core/src/event.rs`. -/
structure MemberJoinRequestEvent where
  eventId : Int
  fromId : Int
  fromNickname : String
  groupId : Int
  groupName : String
  inviterId : Option Int
  message : String

/-- `BotInvitedJoinGroupRequestEvent` from `mah_core/src/event.rs`. -/
structure BotInvitedJoinGroupRequestEvent where
  eventId : Int
  fromId : Int
  fromNickname : String
  groupId : Int
  groupName : String

/-- `CommandSource` from `mah_core/src/event.rs`. -/
inductive CommandSource where
  | Friend (friend : FriendDetails)
  | Member (member : MemberDetails)
  | Console
deriving DecidableEq, Repr

/-- `Deserialize for CommandSource` from `mah_core/src/event.rs`: the two
optional wire fields `friend` and `member` (already decoded) are matched
as a pair; both present is a decode error, exactly one present picks that
variant, and both absent is the console source. -/
def CommandSource.decode (friend : Option FriendDetails)
    (member : Option MemberDetails) : Except String CommandSource :=
  match friend, member with
  | some _, some _ => .error "at most one of `friend` and `member` can be present"
  | some friend, none => .ok (.Friend friend)
  | none, some member => .ok (.Member member)
  | none, none => .ok .Console

/-- `CommandExecutedEvent` from `mah_core/src/event.rs`. -/
structure CommandExecutedEvent where
  name : String
  args : List IncomingMessageNode
  source : CommandSource

/-- `Event` from `mah_core/src/event.rs`. -/
inductive Event where
  | BotOnline (event : BotOnlineEvent)
  | BotOfflineActive (event : BotOfflineActiveEvent)
  | BotOfflineForced (event : BotOfflineForcedEvent)
  | BotOfflineDropped (event : BotOfflineDroppedEvent)
  | BotRelogin (event : BotReloginEvent)
  | BotMute (event : BotMuteEvent)
  | BotUnmute (event : BotUnmuteEvent)
  | BotJoinGroup (event : BotJoinGroupEvent)
  | BotLeaveGroupActive (event : BotLeaveGroupActiveEvent)
  | BotLeaveGroupKicked (event : BotLeaveGroupKickedEvent)
  | BotLeaveGroupDisband (event : BotLeaveGroupDisbandEvent)
  | BotPermissionChange (event : BotPermissionChangeEvent)
  | StrangerNudge (event : StrangerNudgeEvent)
  | FriendMessageRecall (event : FriendMessageRecallEvent)
  | FriendNudge (event : FriendNudgeEvent)
  | FriendAdd (event : FriendAddEvent)
  | FriendDelete (event : FriendDeleteEvent)
  | FriendNicknameChange (event : FriendNicknameChangeEvent)
  | FriendTyping (event : FriendTypingEvent)
  | GroupMessageRecall (event : GroupMessageRecallEvent)
  | GroupNudge (event : GroupNudgeEvent)
  | GroupNameChange (event : GroupNameChangeEvent)
  | GroupMuteAll (event : GroupMuteAllEvent)
  | GroupAllowAnonymousChat (event : GroupAllowAnonymousChatEvent)
  | GroupAllowConfessTalk (event : GroupAllowConfessTalkEvent)
  | GroupAllowMemberInvite (event : GroupAllowMemberInviteEvent)
  | MemberMute (event : MemberMuteEvent)
  | MemberUnmute (event : MemberUnmuteEvent)
  | MemberJoin (event : MemberJoinEvent)
  | MemberLeaveActive (event : MemberLeaveActiveEvent)
  | MemberLeaveKicked (event : MemberLeaveKickedEvent)
  | MemberNameChange (event : MemberNameChangeEvent)
  | MemberSpecialTitleChange (event : MemberSpecialTitleChangeEvent)
  | MemberPermissionChange (event : MemberPermissionChangeEvent)
  | MemberHonorChange (event : MemberHonorChangeEvent)
  | OtherClientOnline (event : OtherClientOnlineEvent)
  | OtherClientOffline (event : OtherClientOfflineEvent)
  | NewFriendRequest (event : NewFriendRequestEvent)
  | MemberJoinRequest (event : MemberJoinRequestEvent)
  | BotInvitedJoinGroupRequest (event : BotInvitedJoinGroupRequestEvent)
  | CommandExecuted (event : CommandExecutedEvent)

/-- `FriendMessage` from `mah_core/src/message.rs`. -/
structure FriendMessage where
  sender : FriendDetails
  contents : IncomingMessageContents

/-- `FriendSyncMessage` from `mah_core/src/message.rs`. -/
structure FriendSyncMessage where
  context : FriendDetails
  contents : IncomingMessageContents

/-- `GroupMessage` from `mah_core/src/message.rs`. -/
structure GroupMessage where
  sender : MemberDetails
  contents : IncomingMessageContents

/-- `GroupSyncMessage` from `mah_core/src/message.rs`. -/
structure GroupSyncMessage where
  context : GroupDetails
  contents : IncomingMessageContents

/-- `TempMessage` from `mah_core/src/message.rs`. -/
structure TempMessage where
  sender : MemberDetails
  contents : IncomingMessageContents

/-- `TempSyncMessage` from `mah_core/src/message.rs`. -/
structure TempSyncMessage where
  context : MemberDetails
  contents : IncomingMessageContents

/-- `StrangerMessage` from `mah_core/src/message.rs`. -/
structure StrangerMessage where
  sender : StrangerDetails
  contents : IncomingMessageContents

/-- `StrangerSyncMessage` from `mah_core/src/message.rs`. -/
structure StrangerSyncMessage where
  context : StrangerDetails
  contents : IncomingMessageContents

/-- `OtherClientMessage` from `mah_core/src/message.rs`. -/
structure OtherClientMessage where
  sender : OtherClientDetails
  contents : IncomingMessageContents

/-- `Message` from `mah_core/src/message.rs`. -/
inductive Message where
  | Friend (message : FriendMessage)
  | FriendSync (message : FriendSyncMessage)
  | Group (message : GroupMessage)
  | GroupSync (message : GroupSyncMessage)
  | Temp (message : TempMessage)
  | TempSync (message : TempSyncMessage)
  | Stranger (message : StrangerMessage)
  | StrangerSync (message : StrangerSyncMessage)
  | OtherClient (message : OtherClientMessage)

/-- `MessageOrEvent` from `mah_core/src/event.rs`. -/
inductive MessageOrEvent where
  | Message (message : Message)
  | Event (event : Event)

/-- The `Subject` enum inside `Deserialize for MessageOrEvent` in
`mah_core/src/event.rs`: the nested `kind`-tagged subject of a nudge
payload. -/
inductive Subject where
  | Friend (friend : FriendDetails)
  | Group (group : GroupDetails)
  | Stranger (stranger : StrangerDetails)
deriving DecidableEq, Repr

/-- The `NudgeEvent` record inside `Deserialize for MessageOrEvent` in
`mah_core/src/event.rs`: the generic wire shape shared by all nudges. -/
structure NudgeEvent where
  fromId : Int
  target : Int
  subject : Subject
  action : String
  suffix : String
deriving DecidableEq, Repr

/-- The `Impl` enum inside `Deserialize for MessageOrEvent` in
`mah_core/src/event.rs`: one wire record, already dispatched on the outer
`type` tag, with each variant's payload decoded. -/
inductive EnvelopeImpl where
  | FriendMessage (message : FriendMessage)
  | FriendSyncMessage (message : FriendSyncMessage)
  | GroupMessage (message : GroupMessage)
  | GroupSyncMessage (message : GroupSyncMessage)
  | TempMessage (message : TempMessage)
  | TempSyncMessage (message : TempSyncMessage)
  | StrangerMessage (message : StrangerMessage)
  | StrangerSyncMessage (message : StrangerSyncMessage)
  | OtherClientMessage (message : OtherClientMessage)
  | BotOnlineEvent (event : BotOnlineEvent)
  | BotOfflineEventActive (event : BotOfflineActiveEvent)
  | BotOfflineEventForce (event : BotOfflineForcedEvent)
  | BotOfflineEventDropped (event : BotOfflineDroppedEvent)
  | BotReloginEvent (event : BotReloginEvent)
  | GroupRecallEvent (event : GroupMessageRecallEvent)
  | FriendRecallEvent (event : FriendMessageRecallEvent)
  | BotGroupPermissionChangeEvent (event : BotPermissionChangeEvent)
  | BotMuteEvent (event : BotMuteEvent)
  | BotUnmuteEvent (event : BotUnmuteEvent)
  | BotJoinGroupEvent (event : BotJoinGroupEvent)
  | BotLeaveEventActive (event : BotLeaveGroupActiveEvent)
  | BotLeaveEventKick (event : BotLeaveGroupKickedEvent)
  | BotLeaveEventDisband (event : BotLeaveGroupDisbandEvent)
  | GroupNameChangeEvent (event : GroupNameChangeEvent)
  | GroupMuteAllEvent (event : GroupMuteAllEvent)
  | GroupAllowAnonymousChatEvent (event : GroupAllowAnonymousChatEvent)
  | GroupAllowConfessTalkEvent (event : GroupAllowConfessTalkEvent)
  | GroupAllowMemberInviteEvent (event : GroupAllowMemberInviteEvent)
  | MemberJoinEvent (event : MemberJoinEvent)
  | MemberLeaveEventKick (event : MemberLeaveKickedEvent)
  | MemberLeaveEventQuit (event : MemberLeaveActiveEvent)
  | MemberCardChangeEvent (event : MemberNameChangeEvent)
  | MemberSpecialTitleChangeEvent (event : MemberSpecialTitleChangeEvent)
  | MemberPermissionChangeEvent (event : MemberPermissionChangeEvent)
  | MemberMuteEvent (event : MemberMuteEvent)
  | MemberUnmuteEvent (event : MemberUnmuteEvent)
  | NewFriendRequestEvent (event : NewFriendRequestEvent)
  | MemberJoinRequestEvent (event : MemberJoinRequestEvent)
  | BotInvitedJoinGroupRequestEvent (event : BotInvitedJoinGroupRequestEvent)
  | NudgeEvent (event : NudgeEvent)
  | FriendInputStatusChangedEvent (event : FriendTypingEvent)
  | FriendNickChangedEvent (event : FriendNicknameChangeEvent)
  | MemberHonorChangeEvent (event : MemberHonorChangeEvent)
  | OtherClientOnlineEvent (event : OtherClientOnlineEvent)
  | OtherClientOfflineEvent (event : OtherClientOfflineEvent)
  | CommandExecutedEvent (event : CommandExecutedEvent)
  | FriendAddEvent (event : FriendAddEvent)
  | FriendDeleteEvent (event : FriendDeleteEvent)

/-- The final match of `Deserialize for MessageOrEvent` in
`mah_core/src/event.rs`: map each tag-dispatched wire record to the
decoded envelope.  The `NudgeEvent` arm matches on the nested `subject`
discriminant to pick among the three concrete nudge events. -/
def decodeMessageOrEvent : EnvelopeImpl → MessageOrEvent
  | .FriendMessage message => .Message (.Friend message)
  | .FriendSyncMessage message => .Message (.FriendSync message)
  | .GroupMessage message => .Message (.Group message)
  | .GroupSyncMessage message => .Message (.GroupSync message)
  | .TempMessage message => .Message (.Temp message)
  | .TempSyncMessage message => .Message (.TempSync message)
  | .StrangerMessage message => .Message (.Stranger message)
  | .StrangerSyncMessage message => .Message (.StrangerSync message)
  | .OtherClientMessage message => .Message (.OtherClient message)
  | .BotOnlineEvent event => .Event (.BotOnline event)
  | .BotOfflineEventActive event => .Event (.BotOfflineActive event)
  | .BotOfflineEventForce event => .Event (.BotOfflineForced event)
  | .BotOfflineEventDropped event => .Event (.BotOfflineDropped event)
  | .BotReloginEvent event => .Event (.BotRelogin event)
  | .GroupRecallEvent event => .Event (.GroupMessageRecall event)
  | .FriendRecallEvent event => .Event (.FriendMessageRecall event)
  | .BotGroupPermissionChangeEvent event => .Event (.BotPermissionChange event)
  | .BotMuteEvent event => .Event (.BotMute event)
  | .BotUnmuteEvent event => .Event (.BotUnmute event)
  | .BotJoinGroupEvent event => .Event (.BotJoinGroup event)
  | .BotLeaveEventActive event => .Event (.BotLeaveGroupActive event)
  | .BotLeaveEventKick event => .Event (.BotLeaveGroupKicked event)
  | .BotLeaveEventDisband event => .Event (.BotLeaveGroupDisband event)
  | .GroupNameChangeEvent event => .Event (.GroupNameChange event)
  | .GroupMuteAllEvent event => .Event (.GroupMuteAll event)
  | .GroupAllowAnonymousChatEvent event => .Event (.GroupAllowAnonymousChat event)
  | .GroupAllowConfessTalkEvent event => .Event (.GroupAllowConfessTalk event)
  | .GroupAllowMemberInviteEvent event => .Event (.GroupAllowMemberInvite event)
  | .MemberJoinEvent event => .Event (.MemberJoin event)
  | .MemberLeaveEventKick event => .Event (.MemberLeaveKicked event)
  | .MemberLeaveEventQuit event => .Event (.MemberLeaveActive event)
  | .MemberCardChangeEvent event => .Event (.MemberNameChange event)
  | .MemberSpecialTitleChangeEvent event => .Event (.MemberSpecialTitleChange event)
  | .MemberPermissionChangeEvent event => .Event (.MemberPermissionChange event)
  | .MemberMuteEvent event => .Event (.MemberMute event)
  | .MemberUnmuteEvent event => .Event (.MemberUnmute event)
  | .NewFriendRequestEvent event => .Event (.NewFriendRequest event)
  | .MemberJoinRequestEvent event => .Event (.MemberJoinRequest event)
  | .BotInvitedJoinGroupRequestEvent event => .Event (.BotInvitedJoinGroupRequest event)
  | .NudgeEvent event =>
    .Event
      (match event.subject with
      | .Friend friend =>
        .FriendNudge
          { context := friend, fromId := event.fromId, toId := event.target,
            action := event.action, suffix := event.suffix }
      | .Group group =>
        .GroupNudge
          { context := group, fromId := event.fromId, toId := event.target,
            action := event.action, suffix := event.suffix }
      | .Stranger stranger =>
        .StrangerNudge
          { context := stranger, fromId := event.fromId, toId := event.target,
            action := event.action, suffix := event.suffix })
  | .FriendInputStatusChangedEvent event => .Event (.FriendTyping event)
  | .FriendNickChangedEvent event => .Event (.FriendNicknameChange event)
  | .MemberHonorChangeEvent event => .Event (.MemberHonorChange event)
  | .OtherClientOnlineEvent event => .Event (.OtherClientOnline event)
  | .OtherClientOfflineEvent event => .Event (.OtherClientOffline event)
  | .CommandExecutedEvent event => .Event (.CommandExecuted event)
  | .FriendAddEvent event => .Event (.FriendAdd event)
  | .FriendDeleteEvent event => .Event (.FriendDelete event)

/-- C4: decoding a nudge payload picks the concrete event by the nested
`subject` discriminant, not by the outer `type` tag (all nudges share the
single outer `NudgeEvent` tag): a `Group` subject decodes to the
group-nudge event carrying the group's details as context, a `Friend`
subject to the friend-nudge event carrying the friend's details, and a
`Stranger` subject to the stranger-nudge event carrying the stranger's
details, each carrying the payload's `from_id` and `target` as the
from/to ids. -/
theorem c4_nudge_subject_dispatch (fromId target : Int) (action suffix : String) :
    (∀ group : GroupDetails,
        decodeMessageOrEvent
            (.NudgeEvent
              { fromId := fromId, target := target, subject := .Group group,
                action := action, suffix := suffix }) =
          .Event (.GroupNudge
            { context := group, fromId := fromId, toId := target,
              action := action, suffix := suffix })) ∧
    (∀ friend : FriendDetails,
        decodeMessageOrEvent
            (.NudgeEvent
              { fromId := fromId, target := target, subject := .Friend friend,
                action := action, suffix := suffix }) =
          .Event (.FriendNudge
            { context := friend, fromId := fromId, toId := target,
              action := action, suffix := suffix })) ∧
    (∀ stranger : StrangerDetails,
        decodeMessageOrEvent
            (.NudgeEvent
              { fromId := fromId, target := target, subject := .Stranger stranger,
                action := action, suffix := suffix }) =
          .Event (.StrangerNudge
            { context := stranger, fromId := fromId, toId := target,
              action := action, suffix := suffix })) := by
  refine ⟨fun group => ?_, fun friend => ?_, fun stranger => ?_⟩ <;> rfl

/-- C5: decoding a `CommandSource` from the two optional fields yields a
three-way result: only `friend` present gives `Friend`, only `member`
present gives `Member`, both absent gives `Console`, and both present is
a decode error rather than a silent preference for either field. -/
theorem c5_command_source_three_way :
    (∀ (f : FriendDetails) (m : MemberDetails),
        CommandSource.decode (some f) (some m) =
          .error "at most one of `friend` and `member` can be present") ∧
    (∀ f : FriendDetails, CommandSource.decode (some f) none = .ok (.Friend f)) ∧
    (∀ m : MemberDetails, CommandSource.decode none (some m) = .ok (.Member m)) ∧
    CommandSource.decode none none = .ok .Console := by
  refine ⟨fun f m => ?_, fun f => ?_, fun m => ?_, ?_⟩ <;> rfl

/-- `str::starts_with('/')` as used by `deserialize_file_id` in
`mah_core/src/message.rs`: whether the first character is `'/'`. -/
def startsWithSlash (s : String) : Bool :=
  match s.data with
  | [] => false
  | c :: _ => c = '/'

/-- `String::insert(0, '/')` as used by `deserialize_file_id` in
`mah_core/src/message.rs`: prepend a `'/'` character. -/
def insertLeadingSlash (s : String) : String :=
  ⟨'/' :: s.data⟩

/-- `deserialize_file_id` from `mah_core/src/message.rs`: prepend `'/'`
to the decoded string unless it already starts with `'/'`. -/
def deserializeFileId (s : String) : String :=
  if startsWithSlash s then s else insertLeadingSlash s

/-- The serde decode of `IncomingFileNode` from `mah_core/src/message.rs`:
the `id` field goes through `deserialize_file_id`, the other fields are
taken as decoded. -/
def decodeIncomingFileNode (rawId name : String) (size : Int) : IncomingFileNode :=
  { id := deserializeFileId rawId, name := name, size := size }

/-- C8: file-id normalization on decode always yields an id beginning
with `'/'`, is applied exactly once per decode (the decoded node's id is
the normalization of the raw wire string), and is idempotent:
normalizing an already-normalized id returns it unchanged. -/
theorem c8_file_id_normalization (s : String) :
    startsWithSlash (deserializeFileId s) = true ∧
    deserializeFileId (deserializeFileId s) = deserializeFileId s ∧
    (∀ (name : String) (size : Int),
        (decodeIncomingFileNode s name size).id = deserializeFileId s) := by
    refine ⟨?_, ?_, fun name size => rfl⟩ <;>
    · obtain ⟨data⟩ := s
      cases data with
      | nil => simp [deserializeFileId, startsWithSlash, insertLeadingSlash]
      | cons c cs =>
        by_cases hc : c = '/' <;>
          simp [deserializeFileId, startsWithSlash, insertLeadingSlash, hc]

/-- `FileLocator` from `mah_core/src/types.rs`. -/
inductive FileLocator where
  | Id (id : String)
  | Path (path : String)
deriving DecidableEq, Repr

/-- `FileLocator::root` from `mah_core/src/types.rs`: the id-based
locator with the empty-string id. -/
def FileLocator.root : FileLocator :=
  .Id ""

/-- `str::is_empty` on the model of Rust strings. -/
def strIsEmpty (s : String) : Bool :=
  s.data.isEmpty

/-- `Serialize for FileLocator` from `mah_core/src/types.rs`, modelled as
the list of emitted (field name, string value) pairs: an id-based locator
emits the `id` field unless the id is empty
(`skip_serializing_if = "str::is_empty"`); a path-based locator always
emits the `path` field. -/
def FileLocator.serializeFields : FileLocator → List (String × String)
  | .Id id => if strIsEmpty id then [] else [("id", id)]
  | .Path path => [("path", path)]

/-- C9: serializing a `FileLocator` emits exactly one of the two
addressing fields: the root locator (empty-string id) serializes with the
id field omitted entirely, a non-empty id emits only the `id` field, and
a path-based locator always emits the `path` field, including for the
empty path. -/
theorem c9_file_locator_serialization :
    FileLocator.serializeFields FileLocator.root = [] ∧
    (∀ s : String, s ≠ "" → FileLocator.serializeFields (.Id s) = [("id", s)]) ∧
    (∀ s : String, FileLocator.serializeFields (.Path s) = [("path", s)]) := by
  refine ⟨rfl, fun s hs => ?_, fun s => rfl⟩
  have hd : s.data ≠ [] := fun h => hs (by cases s; simp_all)
  simp [FileLocator.serializeFields, strIsEmpty, hd]

/-- Closed witness for the C9 theorem at a concrete non-empty id. -/
theorem c9_file_locator_serialization_witness :
    FileLocator.serializeFields (.Id "f") = [("id", "f")] :=
  c9_file_locator_serialization.2.1 "f" (by decide)

/-- `adapter::Error` from `mah_core/src/adapter.rs` (the remote gateway's
`{code, msg}` error shape); `NonZeroU16` is modelled as `Nat`. -/
structure AdapterError where
  code : Nat
  message : String
deriving DecidableEq, Repr

/-- `SendMessageResult` from `mah_core/src/types.rs`. -/
structure SendMessageResult where
  messageId : Int
deriving DecidableEq, Repr

/-- `From<SendMessageResult> for Result<i32, E>` from
`mah_core/src/types.rs`:
`(value.message_id != -1).then_some(value.message_id).ok_or_else(|| Error { code: 500, message: "message was rejected" }.into())`. -/
def SendMessageResult.intoResult (value : SendMessageResult) : Except AdapterError Int :=
  if value.messageId ≠ -1 then .ok value.messageId
  else .error { code := 500, message := "message was rejected" }

/-- `HttpAdapterError` from `mah_http_adapter/src/lib.rs`; the payloads
of the transport (`reqwest`) and JSON (`serde_json`) error variants are
external and abstracted away. -/
inductive HttpAdapterError where
  | Fetch
  | Json
  | Mirai (err : AdapterError)
deriving DecidableEq, Repr

/-- `HttpAdapterHandler::send` from `mah_http_adapter/src/lib.rs`:
propagate a failed `validate` unchanged (`?`), then convert the decoded
`SendMessageResult` through the shared sentinel conversion, with
`adapter::Error` injected into `HttpAdapterError` via the `Mirai`
variant.  This single helper is what `send_friend_message`,
`send_group_message`, `send_temp_message` and `send_other_client_message`
all delegate to. -/
def httpAdapterSend (validated : Except HttpAdapterError SendMessageResult) :
    Except HttpAdapterError Int :=
  match validated with
  | .error e => .error e
  | .ok value =>
    match value.intoResult with
    | .ok id => .ok id
    | .error e => .error (.Mirai e)

/-- C10: when a send-message response decodes successfully, a
`message_id` of `-1` is converted into the remote-rejection error with
code `500` and message `"message was rejected"`, while every other
`message_id` (including `0`) is returned as `Ok` with that exact value;
a failed decode propagates its own error unchanged. -/
theorem c10_send_rejection_sentinel :
    (∀ m : Int,
        httpAdapterSend (.ok { messageId := m }) =
          if m = -1 then .error (.Mirai { code := 500, message := "message was rejected" })
          else .ok m) ∧
    (∀ e : HttpAdapterError, httpAdapterSend (.error e) = .error e) ∧
    httpAdapterSend (.ok { messageId := 0 }) = .ok 0 := by
  refine ⟨fun m => ?_, fun e => rfl, rfl⟩
  by_cases h : m = -1 <;> simp [httpAdapterSend, SendMessageResult.intoResult, h]

/-- The outcome of one `fetch_message` call made by the pull pump in
`HttpAdapterEvents::listen` (`mah_http_adapter/src/lib.rs`): a decoded
batch of events, or a transport error (which is reported to the error
sink and does not carry data). -/
inductive FetchOutcome (α : Type) where
  | ok (events : List α)
  | err
deriving DecidableEq, Repr

/-- Control flow of the loop body of `HttpAdapterEvents::listen`
(`mah_http_adapter/src/lib.rs`): after a fetch, the task reaches the
`tokio::time::timeout(poll_interval, tx.closed())` wait exactly when the
fetch returned an empty batch (`events.is_empty()`) or an error; after a
nonempty successful batch it sends the events (a send on a closed channel
returns an error that the loop discards) and immediately re-enters the
inner loop, issuing the next fetch without any closure check. -/
def entersPollWait {α : Type} : FetchOutcome α → Bool
  | .ok [] => true
  | .ok (_ :: _) => false
  | .err => true

/-- Whether the pull pump of `HttpAdapterEvents::listen` issues its `n`-th
fetch, given the outcome of each fetch and, for each iteration, whether
the consumer has closed the output channel by the time that iteration's
poll-interval wait would run (`closed n`; timing is abstracted in the
spec's favor: a closed channel is assumed to be observed by the wait
immediately).  Fetch `0` is always issued; fetch `n + 1` is issued unless
the task already exited, which happens exactly when iteration `n` reached
the poll-interval wait with the channel closed (`timeout(poll_interval,
tx.closed())` returning `Ok` makes the task return). -/
def fetchIssued {α : Type} (results : Nat → FetchOutcome α) (closed : Nat → Bool) :
    Nat → Bool
  | 0 => true
  | n + 1 => fetchIssued results closed n && !(entersPollWait (results n) && closed n)

/-- C3 counterexample: with the output channel closed from the very
start (`closed` constantly true) and every fetch returning a nonempty
batch, the pump still issues fetch number 1 — a new transport fetch after
the channel is closed — because the nonempty-batch path re-enters the
loop without observing closure (the failed sends on the closed channel
are discarded).  So it is not true that for every sequence of fetch
results no new fetch is issued after the channel is closed. -/
theorem c3_counterexample_fetch_after_close :
    fetchIssued (fun _ => FetchOutcome.ok [()]) (fun _ => true) 1 = true := by
  rfl

/-- C3 (amended): once some iteration `n` reaches the poll-interval wait
(its fetch returned an empty batch or an error) while the channel is
closed, the background task exits and no later fetch is issued. -/
theorem c3_pump_stops_at_closed_wait {α : Type} (results : Nat → FetchOutcome α)
    (closed : Nat → Bool) (n m : Nat) (hwait : entersPollWait (results n) = true)
    (hclosed : closed n = true) (hlt : n < m) :
    fetchIssued results closed m = false := by
  induction m with
  | zero => omega
  | succ k ih =>
    rcases Nat.lt_succ_iff_lt_or_eq.mp hlt with h | h
    · simp [fetchIssued, ih h]
    · subst h
      simp [fetchIssued, hwait, hclosed]

/-- Closed witness for the amended C3 theorem: the first fetch fails while
the channel is already closed, so fetch 1 is never issued. -/
theorem c3_pump_stops_at_closed_wait_witness :
    fetchIssued (fun _ => (FetchOutcome.err : FetchOutcome Unit)) (fun _ => true) 1 = false :=
  c3_pump_stops_at_closed_wait (fun _ => FetchOutcome.err) (fun _ => true) 0 1 rfl rfl
    (by decide)

end Mah
